import Mathlib

/-!
# CAN Controller Node — verification development

A shallow embedding of the `can-controller-node` repository
(`src/can_controller/can_controller_node.py` and
`src/can_controller/can_file_parser.py`) together with proofs about the
properties its specification states.

Conventions of the embedding:
* Python machine integers are `Nat`/`Int`; Python `x & 0xFF` on a
  (possibly negative) `int` is `Int.emod x 256`, which agrees with
  Python's two's-complement semantics of `&` with a non-negative mask.
* Python `float` scalars that only feed exact decimal arithmetic are
  modelled as `ℚ`; `round` is modelled with banker's rounding
  (`pyRound`), matching Python 3 `round`.
* Side-effecting code (CAN sends, peer messages, responses) is modelled
  as a pure function returning a list of `Effect`s, in program order.
* Fallible code returns `Option`.
-/

/-! ## Arbitration-ID codec -/

/-- `_j1939_to_can_id` from `can_controller_node.py`: clamp the three
fields to their ranges and pack `(priority << 26) | (pgn << 8) | source`.
Inputs are Python ints, hence `ℤ`; the clamped values are natural. -/
def j1939_to_can_id (pgn source_address : ℤ) (priority : ℤ := 6) : ℕ :=
  let p : ℕ := (max 0 (min 7 priority)).toNat
  let g : ℕ := (max 0 (min 0x3FFFF pgn)).toNat
  let s : ℕ := (max 0 (min 0xFF source_address)).toNat
  (p <<< 26) ||| (g <<< 8) ||| s

/-- The decomposition of a 29-bit arbitration ID, per the spec's §3/§4.1
`DecodedId` record. -/
structure DecodedId where
  pgn : ℕ
  source : ℕ
  destination : ℕ
  priority : ℕ
deriving DecidableEq, Repr

/-- Modelled from the spec: the §4.1 Arbitration-ID Codec contract
(implemented by the external `NMEA2000Decoder._extract_header`, which is
not under `src/`): `priority = (id >> 26) & 0x7`, `source = id & 0xFF`,
`pf_ps = (id >> 8) & 0x3FFFF`, split by `PF = (pf_ps >> 8) & 0xFF`:
`PF < 240` (PDU1) gives `destination = PS`, `pgn = pf_ps & 0x3FF00`;
`PF ≥ 240` (PDU2) gives `destination = 0xFF`, `pgn = pf_ps`. -/
def decode_id (id : ℕ) : DecodedId :=
  let priority := (id >>> 26) &&& 0x7
  let source := id &&& 0xFF
  let pf_ps := (id >>> 8) &&& 0x3FFFF
  let pf := (pf_ps >>> 8) &&& 0xFF
  let ps := pf_ps &&& 0xFF
  if pf < 240 then
    { pgn := pf_ps &&& 0x3FF00, source := source, destination := ps, priority := priority }
  else
    { pgn := pf_ps, source := source, destination := 0xFF, priority := priority }

/-- In-range inputs pack to the plain arithmetic sum of the shifted
fields: the three bit ranges are disjoint. -/
theorem pack_fields_eq_add (p g s : ℕ) (hg : g ≤ 0x3FFFF) (hs : s ≤ 255) :
    (p <<< 26) ||| (g <<< 8) ||| s = p * 2 ^ 26 + g * 2 ^ 8 + s := by
  have h1 : p <<< 26 = 2 ^ 26 * p := by rw [Nat.shiftLeft_eq]; ring
  have h2 : g <<< 8 = 2 ^ 8 * g := by rw [Nat.shiftLeft_eq]; ring
  have hb : 2 ^ 8 * g < 2 ^ 26 := by omega
  have hmid : 2 ^ 26 * p + 2 ^ 8 * g = 2 ^ 8 * (2 ^ 18 * p + g) := by ring
  calc (p <<< 26) ||| (g <<< 8) ||| s
      = ((2 ^ 26 * p) ||| (2 ^ 8 * g)) ||| s := by rw [h1, h2]
    _ = (2 ^ 26 * p + 2 ^ 8 * g) ||| s := by rw [Nat.mul_add_lt_is_or hb]
    _ = (2 ^ 8 * (2 ^ 18 * p + g)) ||| s := by rw [hmid]
    _ = 2 ^ 8 * (2 ^ 18 * p + g) + s := (Nat.mul_add_lt_is_or (by omega) _).symm
    _ = p * 2 ^ 26 + g * 2 ^ 8 + s := by ring

/-- `j1939_to_can_id` on in-range natural inputs, arithmetically. -/
theorem j1939_to_can_id_eq_add (p g s : ℕ) (hp : p ≤ 7) (hg : g ≤ 0x3FFFF) (hs : s ≤ 255) :
    j1939_to_can_id (g : ℤ) (s : ℤ) (p : ℤ) = p * 2 ^ 26 + g * 2 ^ 8 + s := by
  unfold j1939_to_can_id
  have hpp : (max 0 (min 7 (p : ℤ))).toNat = p := by omega
  have hgg : (max 0 (min 0x3FFFF (g : ℤ))).toNat = g := by omega
  have hss : (max 0 (min 0xFF (s : ℤ))).toNat = s := by omega
  rw [hpp, hgg, hss]
  exact pack_fields_eq_add p g s hg hs

/-- Masking with a low-bit mask is a remainder. -/
theorem and_mask_eq_mod (x : ℕ) (n : ℕ) : x &&& (2 ^ n - 1) = x % 2 ^ n :=
  Nat.and_pow_two_sub_one_eq_mod x n

/-- An 18-bit PGN with a zero PS byte is fixed by the PDU1 mask `0x3FF00`. -/
theorem pdu1_mask_fixes (g : ℕ) (hg : g < 2 ^ 18) (h0 : g % 256 = 0) :
    g &&& 0x3FF00 = g := by
  have hps : g &&& 0xFF = 0 := by
    have : (0xFF : ℕ) = 2 ^ 8 - 1 := by norm_num
    rw [this, and_mask_eq_mod]
    omega
  have hsplit : g &&& 0x3FF00 = g &&& 0x3FFFF := by
    have hor : ((0x3FF00 : ℕ) ||| 0xFF) = 0x3FFFF := by decide
    calc g &&& 0x3FF00 = (g &&& 0x3FF00) ||| (g &&& 0xFF) := by rw [hps, Nat.or_zero]
      _ = g &&& (0x3FF00 ||| 0xFF) := (Nat.and_or_distrib_left g 0x3FF00 0xFF).symm
      _ = g &&& 0x3FFFF := by rw [hor]
  have : (0x3FFFF : ℕ) = 2 ^ 18 - 1 := by norm_num
  rw [hsplit, this, and_mask_eq_mod]
  omega

/-- Decoding an arithmetic-form ID recovers its fields. -/
theorem decode_id_fields (p g s : ℕ) (hp : p ≤ 7) (hg : g ≤ 0x3FFFF) (hs : s ≤ 255) :
    (decode_id (p * 2 ^ 26 + g * 2 ^ 8 + s)).source = s ∧
    (decode_id (p * 2 ^ 26 + g * 2 ^ 8 + s)).priority = p ∧
    ((decode_id (p * 2 ^ 26 + g * 2 ^ 8 + s)).pgn =
      if (g >>> 8) &&& 0xFF < 240 then g &&& 0x3FF00 else g) := by
  unfold decode_id
  set id := p * 2 ^ 26 + g * 2 ^ 8 + s with hid
  have hsrc : id &&& 0xFF = s := by
    have : (0xFF : ℕ) = 2 ^ 8 - 1 := by norm_num
    rw [this, and_mask_eq_mod]
    omega
  have hpr : (id >>> 26) &&& 0x7 = p := by
    rw [Nat.shiftRight_eq_div_pow]
    have hdiv : id / 2 ^ 26 = p := by omega
    have : (0x7 : ℕ) = 2 ^ 3 - 1 := by norm_num
    rw [hdiv, this, and_mask_eq_mod]
    omega
  have hpf : (id >>> 8) &&& 0x3FFFF = g := by
    rw [Nat.shiftRight_eq_div_pow]
    have hdiv : id / 2 ^ 8 = p * 2 ^ 18 + g := by omega
    have : (0x3FFFF : ℕ) = 2 ^ 18 - 1 := by norm_num
    rw [hdiv, this, and_mask_eq_mod]
    omega
  rw [hsrc, hpr, hpf]
  by_cases hf : (g >>> 8) &&& 0xFF < 240 <;> simp [hf]

/-- C3: the claim as frozen is false: PGN 1 (PDU1 format, PS byte = 1)
does not survive the §4.1 decomposition of its encoded ID — the PDU1
branch masks the PS byte away, so the decoded PGN is 0, not 1. -/
theorem j1939_roundtrip_counterexample :
    (decode_id (j1939_to_can_id 1 0 0)).pgn = 0 ∧ (0 : ℕ) ≠ 1 := by decide

/-- C3 (amended): for every pgn in [0, 0x3FFFF] whose PF byte is ≥ 240
(PDU2) or whose PS byte is zero, every source address in [0, 255] and
every priority in [0, 7], the §4.1 decomposition of the arbitration ID
produced by `_j1939_to_can_id` recovers exactly (pgn, sa, p). -/
theorem j1939_roundtrip_recovers (p g s : ℕ) (hp : p ≤ 7) (hg : g ≤ 0x3FFFF)
    (hs : s ≤ 255) (hform : 240 ≤ (g >>> 8) &&& 0xFF ∨ g % 256 = 0) :
    (decode_id (j1939_to_can_id (g : ℤ) (s : ℤ) (p : ℤ))).pgn = g ∧
    (decode_id (j1939_to_can_id (g : ℤ) (s : ℤ) (p : ℤ))).source = s ∧
    (decode_id (j1939_to_can_id (g : ℤ) (s : ℤ) (p : ℤ))).priority = p := by
  rw [j1939_to_can_id_eq_add p g s hp hg hs]
  obtain ⟨h1, h2, h3⟩ := decode_id_fields p g s hp hg hs
  refine ⟨?_, h1, h2⟩
  rw [h3]
  rcases hform with hf | hz
  · rw [if_neg (by omega)]
  · by_cases hlt : (g >>> 8) &&& 0xFF < 240
    · rw [if_pos hlt]
      exact pdu1_mask_fixes g (by omega) hz
    · rw [if_neg hlt]

/-- C3 witness: PGN 0x1F211 (PDU2: PF = 0xF2 ≥ 240), SA 0x91, priority 3
round-trips through encode/decode. -/
theorem j1939_roundtrip_recovers_witness :
    (decode_id (j1939_to_can_id ((0x1F211 : ℕ) : ℤ) ((0x91 : ℕ) : ℤ) ((3 : ℕ) : ℤ))).pgn
      = 0x1F211 ∧
    (decode_id (j1939_to_can_id ((0x1F211 : ℕ) : ℤ) ((0x91 : ℕ) : ℤ) ((3 : ℕ) : ℤ))).source
      = 0x91 ∧
    (decode_id (j1939_to_can_id ((0x1F211 : ℕ) : ℤ) ((0x91 : ℕ) : ℤ) ((3 : ℕ) : ℤ))).priority
      = 3 :=
  j1939_roundtrip_recovers 3 0x1F211 0x91 (by decide) (by decide) (by decide)
    (Or.inl (by decide))

/-! ## Rudder encoder (PGN 127245) -/

/-- Python 3 `round` to the nearest integer, ties to even. -/
def pyRound (q : ℚ) : ℤ :=
  let f := ⌊q⌋
  if q - f < 1 / 2 then f
  else if 1 / 2 < q - f then f + 1
  else if f % 2 = 0 then f else f + 1

/-- The scaled-and-clamped raw value used for the two signed 16-bit rudder
fields in `_format_rudder_message`: `int(round(x * RAD_SCALE))` (with
`RAD_SCALE = 10000`) clamped by `max(-32768, min(32767, ·))`. -/
def rudder_scaled (x : ℚ) : ℤ :=
  max (-32768) (min 32767 (pyRound (x * 10000)))

/-- The two's-complement-to-unsigned conversion of
`_format_rudder_message`: negative scaled values get 65536 added, and both
branches are masked with `& 0xFFFF`. -/
def to_unsigned16 (n : ℤ) : ℕ :=
  (if n < 0 then (n + 65536) % 65536 else n % 65536).toNat

/-- Input fields for `_format_rudder_message`, with the defaults the
source applies via `data.get` (the `instance` key is `inst` here — Lean
reserves the word). -/
structure RudderData where
  inst : ℤ := 0
  directionOrder : ℤ := 0
  angleOrder : ℚ := 0
  position : ℚ := 0
  reserved_48 : ℤ := 0xFFFF
deriving DecidableEq

/-- An outbound CAN frame as the node hands it to `can.Message`. -/
structure CanFrameOut where
  arbitration_id : ℕ
  data : List ℕ
  is_extended_id : Bool
deriving DecidableEq, Repr

/-- `int.to_bytes(8, byteorder = "little")`: the eight low-endian bytes. -/
def to_bytes_le8 (n : ℕ) : List ℕ :=
  (List.range 8).map fun k => (n >>> (8 * k)) &&& 0xFF

/-- `_format_rudder_message` from `can_controller_node.py`: mask the
integer fields, scale/clamp the radian fields, pack the 64-bit payload
bit-by-bit, and address the frame with PGN 127245, priority 6 and the
configured source address. -/
def format_rudder_message (can_source_address : ℤ) (d : RudderData) : CanFrameOut :=
  let instance_masked := (d.inst % 256).toNat
  let direction_order := (d.directionOrder % 65536).toNat
  let reserved_48 := (d.reserved_48 % 65536).toNat
  let angle_order_unsigned := to_unsigned16 (rudder_scaled d.angleOrder)
  let position_unsigned := to_unsigned16 (rudder_scaled d.position)
  let data_raw : ℕ :=
    ((instance_masked &&& 0xFF) <<< 0) |||
    ((direction_order &&& 0x7) <<< 8) |||
    ((0 &&& 0x1F) <<< 11) |||
    ((angle_order_unsigned &&& 0xFFFF) <<< 16) |||
    ((position_unsigned &&& 0xFFFF) <<< 32) |||
    ((reserved_48 &&& 0xFFFF) <<< 48)
  { arbitration_id := j1939_to_can_id 127245 can_source_address 6,
    data := to_bytes_le8 data_raw,
    is_extended_id := true }

/-- The rudder input of the spec's end-to-end scenario 1: instance 0,
directionOrder 0, angleOrder 0.2 rad, position 0.08 rad, reserved 0xFFFF. -/
def rudderScenarioInput : RudderData :=
  { inst := 0, directionOrder := 0, angleOrder := 2 / 10, position := 8 / 100,
    reserved_48 := 0xFFFF }

/-- `rudder_scaled` at 0.2 rad: exactly 2000 LSB. -/
theorem rudder_scaled_02 : rudder_scaled (2 / 10) = 2000 := by
  unfold rudder_scaled pyRound
  norm_num

/-- `rudder_scaled` at 0.08 rad: exactly 800 LSB. -/
theorem rudder_scaled_008 : rudder_scaled (8 / 100) = 800 := by
  unfold rudder_scaled pyRound
  norm_num

/-- C2: the claim as frozen is false: the encoder addresses the scenario-1
rudder frame with arbitration ID `(6<<26)|(127245<<8)|0x91 = 0x19F10D91`
(127245 = 0x1F10D), not the `0x19F70D91` the claim copies from the
spec. -/
theorem rudder_encode_id_counterexample :
    (format_rudder_message 0x91 rudderScenarioInput).arbitration_id = 0x19F10D91 ∧
    (0x19F10D91 : ℕ) ≠ 0x19F70D91 := by
  constructor
  · unfold format_rudder_message
    decide
  · decide

/-- C2 (amended): encoding the scenario-1 rudder fields with source
address 0x91 yields arbitration ID 0x19F10D91, extended addressing, and
exactly the eight bytes 00 00 D0 07 20 03 FF FF. -/
theorem rudder_encode_scenario1 :
    format_rudder_message 0x91 rudderScenarioInput =
      { arbitration_id := 0x19F10D91,
        data := [0x00, 0x00, 0xD0, 0x07, 0x20, 0x03, 0xFF, 0xFF],
        is_extended_id := true } := by
  unfold format_rudder_message
  dsimp only [rudderScenarioInput]
  rw [rudder_scaled_02, rudder_scaled_008]
  decide

/-- The closest `ℚ` value to `math.pi` a Python float can hold, to 16
significant digits: the value `_format_rudder_message` actually receives
for a position of +π rad. -/
def piFloat : ℚ := 3141592653589793 / 1000000000000000

/-- `rudder_scaled` at ±π rad: ±31416 LSB, inside the int16 range. -/
theorem rudder_scaled_pi : rudder_scaled piFloat = 31416 := by
  unfold piFloat rudder_scaled pyRound
  norm_num [Int.floor_eq_iff]

/-- `rudder_scaled` at −π rad. -/
theorem rudder_scaled_neg_pi : rudder_scaled (-piFloat) = -31416 := by
  unfold piFloat rudder_scaled pyRound
  norm_num [Int.floor_eq_iff]

/-- C7: the claim as frozen is false: +π rad scales to raw 31416, which
is strictly inside [-32768, 32767], so no clamping to 32767 happens. -/
theorem rudder_pi_counterexample :
    rudder_scaled piFloat = 31416 ∧ (31416 : ℤ) ≠ 32767 :=
  ⟨rudder_scaled_pi, by decide⟩

/-- C7 (amended): ±π rad produce the unclamped raw values ±31416;
clamping to 32767 / −32768 only engages beyond ±3.2767 rad (shown here
at ±3.3 rad). -/
theorem rudder_pi_and_clamp_bounds :
    rudder_scaled piFloat = 31416 ∧ rudder_scaled (-piFloat) = -31416 ∧
    rudder_scaled (33 / 10) = 32767 ∧ rudder_scaled (-(33 / 10)) = -32768 := by
  refine ⟨rudder_scaled_pi, rudder_scaled_neg_pi, ?_, ?_⟩ <;>
    · unfold rudder_scaled pyRound
      norm_num

/-! ## Message-plane effects -/

/-- Modelled from the spec: the BaseNode message priorities (§6); the
`base_node` module is not under `src/`. -/
inductive MsgPriority where
  | normal
  | high
  | emergency
deriving DecidableEq, Repr

/-- The payload shape of a response: `_send_response` sends a dict with a
`status` and `message` key, `_send_error_response` a dict with an `error`
key (and HIGH priority). -/
inductive RespPayload where
  | ok (status message : String)
  | err (error : String)
deriving DecidableEq, Repr

/-- One observable action of the node, in program order: a CAN-bus send,
a peer/Master-Core message, a response, or starting the playback thread. -/
inductive Effect where
  | canSend (arbitration_id : ℕ) (data : List ℕ) (is_extended_id : Bool)
  | emergencyPeer (dest : String)
  | respond (priority : MsgPriority) (payload : RespPayload)
  | masterData (decodedFlag : Bool)
  | masterCommand (command collection category : String)
  | subscriberData (dest : String) (decodedFlag : Bool)
  | startPlayback (file_path : String)
deriving DecidableEq, Repr

/-- Whether an effect is a CAN-bus send. -/
def Effect.isCanSend : Effect → Bool
  | .canSend _ _ _ => true
  | _ => false

/-- Whether an effect is a response message. -/
def Effect.isRespond : Effect → Bool
  | .respond _ _ => true
  | _ => false

/-- Whether an effect is a COMMAND message to Master Core. -/
def Effect.isMasterCommand : Effect → Bool
  | .masterCommand _ _ _ => true
  | _ => false

/-! ## Emergency stop -/

/-- `_send_emergency_stop_can` from `can_controller_node.py`: one frame
with arbitration ID 0x1FF, eight 0xFF bytes, standard (11-bit)
addressing. -/
def send_emergency_stop_can : List Effect :=
  [.canSend 0x1FF [0xFF, 0xFF, 0xFF, 0xFF, 0xFF, 0xFF, 0xFF, 0xFF] false]

/-- Modelled from the spec: `BaseNode.send_emergency` (the `base_node`
module is not under `src/`) sends one EMERGENCY-priority peer message to
each destination name, in order. -/
def send_emergency (nodes : List String) : List Effect :=
  nodes.map Effect.emergencyPeer

/-- `_handle_emergency_stop` from `can_controller_node.py`: when
emergency stop is enabled, send the emergency frame on the bus, then
broadcast the emergency payload to every name in `emergency_nodes`. -/
def handle_emergency_stop (emergency_stop_enabled : Bool)
    (emergency_nodes : List String) : List Effect :=
  (if emergency_stop_enabled then send_emergency_stop_can else [])
    ++ send_emergency emergency_nodes

/-- The default `emergency_nodes` configuration from the node's `main`. -/
def defaultEmergencyNodes : List String := ["engine", "steering", "autopilot"]

/-- Peer-message effects never show up as CAN sends. -/
theorem send_emergency_no_canSend (nodes : List String) :
    (send_emergency nodes).countP (fun e => e.isCanSend) = 0 := by
  unfold send_emergency
  induction nodes with
  | nil => rfl
  | cons n rest ih => simp [List.countP_cons, Effect.isCanSend, ih]

/-- C1: with emergency stop enabled, handling an emergency-stop command
performs exactly one CAN send — arbitration ID 0x1FF, eight 0xFF bytes,
`is_extended_id = false`, at the head of the effect list — followed by
one EMERGENCY-priority peer message to each name in `emergency_nodes`,
in order. -/
theorem emergency_stop_effects (emergency_nodes : List String) :
    handle_emergency_stop true emergency_nodes =
      Effect.canSend 0x1FF (List.replicate 8 0xFF) false
        :: emergency_nodes.map Effect.emergencyPeer ∧
    (handle_emergency_stop true emergency_nodes).countP (fun e => e.isCanSend) = 1 := by
  constructor
  · simp [handle_emergency_stop, send_emergency_stop_can, send_emergency]
  · simp only [handle_emergency_stop, if_pos, List.countP_append]
    rw [send_emergency_no_canSend]
    rfl

/-! ## Category classifier and ingestion fan-out -/

/-- Modelled from the spec: the `DataCategories` enum of
`src/data_storage/constants.py`, which is not under `src/`; the spec's §3
closed Category enum. -/
inductive DataCategory where
  | heartbeat
  | engine
  | fuel
  | navigation
  | energydistribution
  | steering
  | battery
  | product
  | unknown
deriving DecidableEq, Repr

/-- Modelled from the spec: the `.value` string of each `DataCategories`
member (the enum source is not under `src/`); the spec's §3 category
names. -/
def DataCategory.value : DataCategory → String
  | .heartbeat => "Heartbeat"
  | .engine => "Engine"
  | .fuel => "Fuel"
  | .navigation => "Navigation"
  | .energydistribution => "EnergyDistribution"
  | .steering => "Steering"
  | .battery => "Battery"
  | .product => "Product"
  | .unknown => "Unknown"

/-- `_categorize_data` from `can_controller_node.py`: the PGN → category
chain, in source order. -/
def categorize_data (pgn : ℕ) : DataCategory :=
  if pgn = 126993 then .heartbeat
  else if pgn = 127488 then .engine
  else if pgn = 127505 then .fuel
  else if pgn = 127250 then .navigation
  else if pgn = 127257 then .navigation
  else if pgn = 129026 then .navigation
  else if pgn = 129025 then .navigation
  else if pgn = 129540 then .navigation
  else if pgn = 129029 then .navigation
  else if pgn = 126992 then .navigation
  else if pgn = 129539 then .navigation
  else if pgn = 127258 then .navigation
  else if pgn = 127489 then .engine
  else if pgn = 127497 then .engine
  else if pgn = 127751 then .energydistribution
  else if pgn = 127500 then .energydistribution
  else if pgn = 127501 then .energydistribution
  else if pgn = 127245 then .steering
  else if pgn = 127508 then .battery
  else if pgn = 127506 then .battery
  else if pgn = 129283 then .navigation
  else if pgn = 129284 then .navigation
  else if pgn = 65361 then .product
  else if pgn = 60928 then .product
  else if pgn = 59392 then .product
  else .unknown

/-- `_get_collection_name` from `can_controller_node.py`. -/
def get_collection_name : DataCategory → String
  | .heartbeat => "NodeHeartbeat"
  | .fuel => "Fuel"
  | .navigation => "Navigation"
  | .engine => "Engine"
  | .energydistribution => "EnergyDistribution"
  | .steering => "Steering"
  | .battery => "Battery"
  | .product => "Product"
  | .unknown => "Unknown"

/-- `_send_parsed_data_to_db` from `can_controller_node.py`: one
`store_can_data` COMMAND to Master Core, addressed to the category's
collection, carrying the category's value string. -/
def send_parsed_data_to_db (category : DataCategory) : List Effect :=
  [.masterCommand "store_can_data" (get_collection_name category) category.value]

/-- `_process_can_message` from `can_controller_node.py`, parametrised by
the outcome of the external `decoder.decode_basic_string` call (`some
pgn` when the library decodes the frame to a record with that PGN, `none`
when it returns nothing): store command (decoded only), subscriber
broadcast, then the DATA message to Master Core. -/
def process_can_message (data_subscribers : List String)
    (decoded : Option ℕ) : List Effect :=
  match decoded with
  | some pgn =>
      send_parsed_data_to_db (categorize_data pgn)
        ++ data_subscribers.map (fun s => .subscriberData s true)
        ++ [.masterData true]
  | none =>
      data_subscribers.map (fun s => .subscriberData s false)
        ++ [.masterData false]

/-- C5: the claim as frozen is false for frames the NMEA2000 library can
decode: PGN 131071 is not in the recognized set, so it is classified
Unknown and the frame is forwarded as DATA — but a `store_can_data`
COMMAND (collection "Unknown") is still sent to Master Core. -/
theorem unknown_pgn_store_counterexample :
    categorize_data 131071 = .unknown ∧
    Effect.masterData true ∈ process_can_message ["nav_ui"] (some 131071) ∧
    Effect.masterCommand "store_can_data" "Unknown" "Unknown"
      ∈ process_can_message ["nav_ui"] (some 131071) := by
  refine ⟨by decide, ?_, ?_⟩ <;>
    simp [process_can_message, send_parsed_data_to_db, categorize_data,
      get_collection_name, DataCategory.value]

/-- C5 (amended): a frame the external decoder fails to decode is
forwarded to Master Core as DATA with `decoded = false` and produces no
COMMAND at all; a frame the decoder does decode whose PGN is outside the
recognized set is classified Unknown, forwarded as DATA with
`decoded = true`, and additionally produces a `store_can_data` COMMAND
with collection "Unknown". -/
theorem unknown_pgn_fanout (data_subscribers : List String) (pgn : ℕ)
    (hunk : categorize_data pgn = .unknown) :
    ((process_can_message data_subscribers none).countP
        (fun e => e.isMasterCommand) = 0) ∧
    Effect.masterData false ∈ process_can_message data_subscribers none ∧
    Effect.masterCommand "store_can_data" "Unknown" "Unknown"
      ∈ process_can_message data_subscribers (some pgn) ∧
    Effect.masterData true ∈ process_can_message data_subscribers (some pgn) := by
  refine ⟨?_, ?_, ?_, ?_⟩
  · simp only [process_can_message, List.countP_append]
    have hmap : (data_subscribers.map (fun s => Effect.subscriberData s false)).countP
        (fun e => e.isMasterCommand) = 0 := by
      induction data_subscribers with
      | nil => rfl
      | cons n rest ih => simp [List.countP_cons, Effect.isMasterCommand, ih]
    rw [hmap]
    rfl
  · simp [process_can_message]
  · simp [process_can_message, send_parsed_data_to_db, hunk,
      get_collection_name, DataCategory.value]
  · simp [process_can_message]

/-- C5 witness: the amended statement at PGN 131071 with one
subscriber. -/
theorem unknown_pgn_fanout_witness :
    ((process_can_message ["nav_ui"] none).countP (fun e => e.isMasterCommand) = 0) ∧
    Effect.masterData false ∈ process_can_message ["nav_ui"] none ∧
    Effect.masterCommand "store_can_data" "Unknown" "Unknown"
      ∈ process_can_message ["nav_ui"] (some 131071) ∧
    Effect.masterData true ∈ process_can_message ["nav_ui"] (some 131071) :=
  unknown_pgn_fanout ["nav_ui"] 131071 (by decide)

/-! ## Bus lifecycle and command dispatcher -/

/-- The bus-related node state: `canBusSome` is `self.can_bus is not
None` (the attribute), `busOpen` whether the underlying channel is open
(`shutdown()` closes it without clearing the attribute), `canRunning` the
listener-loop flag. -/
structure BusState where
  canBusSome : Bool
  busOpen : Bool
  canRunning : Bool
deriving DecidableEq, Repr

/-- `_start_can_bus` from `can_controller_node.py`, with the success of
`can.interface.Bus(...)` supplied by the environment as `open_succeeds`:
on success the attribute is set, the channel is open and the listener
runs; on failure the state is unchanged and `False` is returned. -/
def start_can_bus (open_succeeds : Bool) (st : BusState) : BusState × Bool :=
  if open_succeeds then
    ({ canBusSome := true, busOpen := true, canRunning := true }, true)
  else
    (st, false)

/-- `_stop_can_bus` from `can_controller_node.py`: clear `can_running`,
and call `shutdown()` on the handle when present — `self.can_bus` itself
is never set back to `None`. -/
def stop_can_bus (st : BusState) : BusState :=
  { st with canRunning := false,
            busOpen := if st.canBusSome then false else st.busOpen }

/-- The command payload of an inbound `command` message, with the keys
`_handle_can_command` reads; absent keys are `none` and the `.get`
defaults of the source are applied in the handler. -/
structure CommandPayload where
  command : String
  can_data : Option CanFrameOut := none
  pgn : Option ℤ := none
  source_address : Option ℤ := none
  j1939_data : List ℤ := []
  j1939_priority : ℤ := 6
  rudder : RudderData := {}
deriving DecidableEq

/-- `_send_can_message` from `can_controller_node.py`: `False` without a
bus attribute; otherwise hand the frame to `bus.send` — which raises (and
the handler returns `False`) when the channel has been shut down. -/
def send_can_message (st : BusState) (c : CanFrameOut) : Bool × List Effect :=
  if st.canBusSome then
    if st.busOpen then (true, [.canSend c.arbitration_id c.data c.is_extended_id])
    else (false, [])
  else (false, [])

/-- `_send_j1939_message` from `can_controller_node.py`: `False` without
a bus attribute; mask each data int to a byte, truncate to 8 bytes,
encode the ID, and send extended — `bus.send` on a shut-down channel
raises and yields `False`. -/
def send_j1939_message (st : BusState) (pgn source_address : ℤ)
    (data : List ℤ) (priority : ℤ) : Bool × List Effect :=
  if st.canBusSome then
    let data_bytes := (data.map (fun b => (b % 256).toNat)).take 8
    if st.busOpen then
      (true, [.canSend (j1939_to_can_id pgn source_address priority) data_bytes true])
    else (false, [])
  else (false, [])

/-- `_handle_can_command` from `can_controller_node.py`: dispatch on the
`command` key; every branch ends in `_send_response` (NORMAL priority,
`status`/`message` payload) or `_send_error_response` (HIGH priority,
`error` payload). -/
def handle_can_command (open_succeeds : Bool) (can_source_address : ℤ)
    (st : BusState) (pl : CommandPayload) : BusState × List Effect :=
  if pl.command = "start_monitoring" then
    if st.canBusSome then
      (st, [.respond .normal (.ok "success" "CAN monitoring already started")])
    else
      let (st2, ok) := start_can_bus open_succeeds st
      if ok then (st2, [.respond .normal (.ok "success" "CAN monitoring started")])
      else (st2, [.respond .high (.err "Failed to start CAN bus")])
  else if pl.command = "stop_monitoring" then
    if !st.canBusSome then
      (st, [.respond .normal (.ok "success" "CAN monitoring already stopped")])
    else
      (stop_can_bus st, [.respond .normal (.ok "success" "CAN monitoring stopped")])
  else if pl.command = "send_message" then
    match pl.can_data with
    | some cd =>
        let r := send_can_message st cd
        (st, r.2 ++ [.respond .normal
          (.ok (if r.1 then "success" else "error")
            (if r.1 then "CAN message sent" else "Failed to send CAN message"))])
    | none => (st, [.respond .high (.err "Missing can_data in payload")])
  else if pl.command = "send_j1939" then
    match pl.pgn, pl.source_address with
    | some pgn, some sa =>
        let r := send_j1939_message st pgn sa pl.j1939_data pl.j1939_priority
        (st, r.2 ++ [.respond .normal
          (.ok (if r.1 then "success" else "error")
            (if r.1 then "J1939 message sent" else "Failed to send J1939 message"))])
    | _, _ => (st, [.respond .high (.err "Missing pgn or source_address in payload")])
  else if pl.command = "send_can_message" then
    match pl.pgn with
    | none => (st, [.respond .high (.err "Missing pgn in payload")])
    | some pgn =>
        if pgn = 127245 then
          let r := send_can_message st (format_rudder_message can_source_address pl.rudder)
          (st, r.2 ++ [.respond .normal
            (.ok (if r.1 then "success" else "error")
              (if r.1 then "Rudder message sent to CAN bus"
               else "Failed to send rudder message (check CAN bus initialization)"))])
        else (st, [.respond .high (.err "Unsupported PGN for send_can_message")])
  else (st, [.respond .high (.err "Unknown command")])

/-- `_handle_subscribe_data` from `can_controller_node.py`: insert the
subscriber if present and absent from the registry; no message is sent
back. -/
def handle_subscribe_data (data_subscribers : List String)
    (subscriber : Option String) : List String × List Effect :=
  match subscriber with
  | some s =>
      (if s ∈ data_subscribers then data_subscribers else data_subscribers ++ [s], [])
  | none => (data_subscribers, [])

/-- `_handle_play_can_file` with `_start_playback` from
`can_controller_node.py`: start the playback thread when a path is given,
playback is enabled and no run is active; never respond. -/
def handle_play_can_file (playback_enabled playback_running : Bool)
    (file_path : Option String) : List Effect :=
  match file_path with
  | some fp =>
      if playback_enabled then
        if playback_running then [] else [.startPlayback fp]
      else []
  | none => []

/-- The node state right after a successful `_start_can_bus` at startup. -/
def busStartedState : BusState :=
  { canBusSome := true, busOpen := true, canRunning := true }

/-- C4: the code violates the claim: from a started node,
`stop_monitoring` shuts the channel down but leaves `self.can_bus` set,
so the following `start_monitoring` answers "CAN monitoring already
started" and never reopens the bus — its channel stays closed. -/
theorem start_after_stop_leaves_bus_closed :
    ((handle_can_command true 0x91 busStartedState { command := "stop_monitoring" }).1.busOpen
      = false) ∧
    ((handle_can_command true 0x91
        (handle_can_command true 0x91 busStartedState { command := "stop_monitoring" }).1
        { command := "start_monitoring" }).1.busOpen = false) ∧
    ((handle_can_command true 0x91
        (handle_can_command true 0x91 busStartedState { command := "stop_monitoring" }).1
        { command := "start_monitoring" }).2 =
      [.respond .normal (.ok "success" "CAN monitoring already started")]) := by
  decide

/-- A response whose payload is well formed in the sense of the spec's
§4.8: a `status` of "success" or "error", or an `error` field; non-response
effects are unconstrained. -/
def respondWellFormed : Effect → Bool
  | .respond _ (.ok status _) => status == "success" || status == "error"
  | _ => true

/-- `_send_can_message` emits no response effects, and only well-formed
ones. -/
theorem send_can_message_no_respond (st : BusState) (c : CanFrameOut) :
    (send_can_message st c).2.countP (fun e => e.isRespond) = 0 := by
  unfold send_can_message
  split_ifs <;> simp [Effect.isRespond]

/-- `_send_can_message` effects are all well formed. -/
theorem send_can_message_wf (st : BusState) (c : CanFrameOut) :
    (send_can_message st c).2.all respondWellFormed = true := by
  unfold send_can_message
  split_ifs <;> simp [respondWellFormed]

/-- `_send_j1939_message` emits no response effects. -/
theorem send_j1939_message_no_respond (st : BusState) (pgn sa : ℤ)
    (data : List ℤ) (priority : ℤ) :
    (send_j1939_message st pgn sa data priority).2.countP (fun e => e.isRespond) = 0 := by
  unfold send_j1939_message
  split_ifs <;> simp [Effect.isRespond]

/-- `_send_j1939_message` effects are all well formed. -/
theorem send_j1939_message_wf (st : BusState) (pgn sa : ℤ)
    (data : List ℤ) (priority : ℤ) :
    (send_j1939_message st pgn sa data priority).2.all respondWellFormed = true := by
  unfold send_j1939_message
  split_ifs <;> simp [respondWellFormed]

/-- A response constructor is a response. -/
theorem isRespond_respond (p : MsgPriority) (q : RespPayload) :
    (Effect.respond p q).isRespond = true := rfl

/-- A fixed-success response payload is well formed. -/
theorem respondWellFormed_success (p : MsgPriority) (m : String) :
    respondWellFormed (.respond p (.ok "success" m)) = true := rfl

/-- An error response payload is well formed. -/
theorem respondWellFormed_err (p : MsgPriority) (e : String) :
    respondWellFormed (.respond p (.err e)) = true := rfl

/-- The send branches report status "success" or "error" depending on the
send outcome; either way the payload is well formed. -/
theorem respondWellFormed_status_pair (c : Bool) (p : MsgPriority) (m₁ m₂ : String) :
    respondWellFormed
      (.respond p (.ok (if c then "success" else "error") (if c then m₁ else m₂)))
      = true := by
  cases c <;> rfl

/-- Every `_handle_can_command` branch produces exactly one response, and
every effect it produces is well formed. -/
theorem handle_can_command_one_response (open_succeeds : Bool)
    (can_source_address : ℤ) (st : BusState) (pl : CommandPayload) :
    ((handle_can_command open_succeeds can_source_address st pl).2.countP
        (fun e => e.isRespond) = 1) ∧
    ((handle_can_command open_succeeds can_source_address st pl).2.all
        respondWellFormed = true) := by
  unfold handle_can_command
  repeat' split
  all_goals
    simp only [List.countP_append, List.countP_cons, List.countP_nil,
      List.all_append, List.all_cons, List.all_nil,
      send_can_message_no_respond, send_can_message_wf,
      send_j1939_message_no_respond, send_j1939_message_wf,
      isRespond_respond, respondWellFormed_success, respondWellFormed_err,
      respondWellFormed_status_pair, if_true, Bool.and_true, Bool.true_and,
      and_self]

/-- C6: the claim as frozen is false: the `subscribe_data`,
`emergency_stop` and `play_can_file` handlers send no response message at
all (shown at concrete inputs, with the emergency-stop and playback
handlers doing their work). -/
theorem handlers_no_response_counterexample :
    (handle_subscribe_data [] (some "nav_ui")).2 = [] ∧
    ((handle_emergency_stop true defaultEmergencyNodes).countP
        (fun e => e.isRespond) = 0) ∧
    ((handle_play_can_file true false (some "test.log")).countP
        (fun e => e.isRespond) = 0) := by
  decide

/-- C6 (amended): every command dispatched through the generic `command`
handler yields exactly one response, whose payload carries a `status` of
"success"/"error" or an `error` field; the `subscribe_data`,
`emergency_stop` and `play_can_file` handlers yield no response. -/
theorem command_response_discipline (open_succeeds : Bool) (can_source_address : ℤ)
    (st : BusState) (pl : CommandPayload) (data_subscribers : List String)
    (subscriber : Option String) (emergency_stop_enabled : Bool)
    (emergency_nodes : List String) (playback_enabled playback_running : Bool)
    (file_path : Option String) :
    ((handle_can_command open_succeeds can_source_address st pl).2.countP
        (fun e => e.isRespond) = 1) ∧
    ((handle_can_command open_succeeds can_source_address st pl).2.all
        respondWellFormed = true) ∧
    ((handle_subscribe_data data_subscribers subscriber).2 = []) ∧
    ((handle_emergency_stop emergency_stop_enabled emergency_nodes).countP
        (fun e => e.isRespond) = 0) ∧
    ((handle_play_can_file playback_enabled playback_running file_path).countP
        (fun e => e.isRespond) = 0) := by
  obtain ⟨h1, h2⟩ :=
    handle_can_command_one_response open_succeeds can_source_address st pl
  refine ⟨h1, h2, ?_, ?_, ?_⟩
  · unfold handle_subscribe_data
    cases subscriber <;> simp
  · unfold handle_emergency_stop send_emergency_stop_can send_emergency
    have hmap : (emergency_nodes.map Effect.emergencyPeer).countP
        (fun e => e.isRespond) = 0 := by
      induction emergency_nodes with
      | nil => rfl
      | cons n rest ih => simp [List.countP_cons, Effect.isRespond, ih]
    split <;> simp [List.countP_append, List.countP_cons, Effect.isRespond, hmap]
  · unfold handle_play_can_file
    cases file_path <;> repeat' split
    all_goals simp [Effect.isRespond]

/-! ## CAN log-file parser (`can_file_parser.py`) -/

/-- One step of `re.split` on whitespace: accumulate the current token
(reversed) while walking the character list. -/
def splitWSGo : List Char → List Char → List (List Char)
  | cur, [] => if cur.isEmpty then [] else [cur.reverse]
  | cur, c :: rest =>
      if c = ' ' ∨ c = '\t' then
        if cur.isEmpty then splitWSGo [] rest else cur.reverse :: splitWSGo [] rest
      else splitWSGo (c :: cur) rest

/-- `re.split` with pattern `\s+` on a stripped line, as
`_parse_kvaser_line` uses it. -/
def splitWS (s : String) : List String :=
  (splitWSGo [] s.data).map String.mk

/-- `str.split` on the separator `->` (left-to-right, non-overlapping). -/
def splitOnArrowGo : List Char → List Char → List (List Char)
  | cur, [] => [cur.reverse]
  | cur, '-' :: '>' :: rest => cur.reverse :: splitOnArrowGo [] rest
  | cur, c :: rest => splitOnArrowGo (c :: cur) rest

/-- `str.split` on the separator `.`. -/
def splitOnDotGo : List Char → List Char → List (List Char)
  | cur, [] => [cur.reverse]
  | cur, '.' :: rest => cur.reverse :: splitOnDotGo [] rest
  | cur, c :: rest => splitOnDotGo (c :: cur) rest

/-- `str.replace("0x", "")`: drop every (non-overlapping) occurrence. -/
def remove0xLower : List Char → List Char
  | '0' :: 'x' :: rest => remove0xLower rest
  | c :: rest => c :: remove0xLower rest
  | [] => []

/-- `str.replace("0X", "")`: drop every (non-overlapping) occurrence. -/
def remove0xUpper : List Char → List Char
  | '0' :: 'X' :: rest => remove0xUpper rest
  | c :: rest => c :: remove0xUpper rest
  | [] => []

/-- `str.startswith("#")`. -/
def startsWithHash : List Char → Bool
  | '#' :: _ => true
  | _ => false

/-- The value of one hexadecimal digit. -/
def hexDigitVal? (c : Char) : Option ℕ :=
  if c.isDigit then some (c.toNat - 48)
  else if 'a' ≤ c ∧ c ≤ 'f' then some (c.toNat - 87)
  else if 'A' ≤ c ∧ c ≤ 'F' then some (c.toNat - 55)
  else none

/-- A non-empty all-hex-digit character list as a number. -/
def hexDigitsVal? (cs : List Char) : Option ℕ :=
  cs.foldl
    (fun acc c =>
      match acc, hexDigitVal? c with
      | some a, some d => some (a * 16 + d)
      | _, _ => none)
    (some 0)

/-- Python `int(s, 16)`: an optional `0x`/`0X` prefix followed by at
least one hex digit. `none` models the `ValueError`. Not modelled: sign
prefixes (in Python `int("-5", 16)` is `-5`, so a sign-prefixed token
yields a negative value where this model yields `none`) and underscore
separators; neither occurs in this log format, and no property proved
here asserts a sign for the parsed values. -/
def pyHexNat? (s : String) : Option ℕ :=
  let cs := s.data
  let cs2 := if cs.take 2 = ['0', 'x'] ∨ cs.take 2 = ['0', 'X'] then cs.drop 2 else cs
  if cs2.isEmpty then none else hexDigitsVal? cs2

/-- Python `str.isdigit()` on ASCII content. -/
def pyIsDigit (s : String) : Bool :=
  !s.data.isEmpty && s.data.all (·.isDigit)

/-- The number written by a decimal-digit character list. -/
def decNatOfDigits (cs : List Char) : ℕ :=
  cs.foldl (fun a c => a * 10 + (c.toNat - 48)) 0

/-- Attach a sign to a magnitude. -/
def intSign (neg : Bool) (n : ℕ) : ℤ :=
  if neg then -(n : ℤ) else (n : ℤ)

/-- Python `float(s)` for plain decimal notation, read exactly as a
rational (exponent, infinity and nan forms, underscores, and the binary
rounding of the float type are not modelled — the parsed timestamps only
flow through unchanged). `none` models the `ValueError`. -/
def pyFloat? (s : String) : Option ℚ :=
  let signed : Bool × List Char :=
    match s.data with
    | '-' :: rest => (true, rest)
    | '+' :: rest => (false, rest)
    | cs => (false, cs)
  match splitOnDotGo [] signed.2 with
  | [ip] =>
      if ip ≠ [] ∧ ip.all (·.isDigit) then
        some (mkRat (intSign signed.1 (decNatOfDigits ip)) 1)
      else none
  | [ip, fp] =>
      if ip.all (·.isDigit) ∧ fp.all (·.isDigit) ∧ (ip ≠ [] ∨ fp ≠ []) then
        some (mkRat
          (intSign signed.1 (decNatOfDigits ip * 10 ^ fp.length + decNatOfDigits fp))
          (10 ^ fp.length))
      else none
  | _ => none

/-- The D0–D7 extraction loop of `_parse_kvaser_line`: over the token
slots 6 to `min(14, len(parts))`, a slot that is empty or `-` appends
nothing, any other token appends its hex value — or 0 on `ValueError`. -/
def kvDataBytes (dataCols : List String) : List ℕ :=
  dataCols.filterMap fun tok =>
    if tok = "" ∨ tok = "-" then none
    else some ((pyHexNat? tok).getD 0)

/-- The `while len(data_bytes) < 8: append(0)` padding loop. -/
def padTo8 (l : List ℕ) : List ℕ :=
  l ++ List.replicate (8 - l.length) 0

/-- The message dictionary `_parse_kvaser_line` returns. -/
structure KvMessage where
  can_id : ℕ
  pgn : ℕ
  source : ℕ
  destination : ℕ
  priority : ℕ
  data : List ℕ
  timestamp : ℚ
  direction : String
  raw_line : String
deriving DecidableEq, Repr

/-- `_parse_kvaser_line` from `can_file_parser.py`, on the
already-stripped line its caller passes: reject comments/blank lines and
short lines, read the columns, and build the message record. A
`ValueError` from `float(parts[-2])` propagates to the catch-all handler,
so it yields `none`. -/
def parse_kvaser_line (line : String) : Option KvMessage :=
  if line.data.isEmpty ∨ startsWithHash line.data then none
  else
    let parts := splitWS line
    if parts.length < 12 then none
    else
      let priority := parts.getD 1 ""
      let pgn := parts.getD 3 ""
      let sa_da_field := parts.getD 4 ""
      let data_bytes := kvDataBytes ((parts.take 14).drop 6)
      match pyFloat? (parts.getD (parts.length - 2) "") with
      | none => none
      | some timestamp =>
          let direction := parts.getD (parts.length - 1) ""
          let pgn_clean := String.mk (remove0xUpper (remove0xLower pgn.data))
          let pgn_int := if pgn_clean = "" then 0 else (pyHexNat? pgn_clean).getD 0
          let saParts := (splitOnArrowGo [] sa_da_field.data).map String.mk
          let sa_int :=
            if 2 ≤ saParts.length then
              if saParts.getD 0 "" = "" then 0 else (pyHexNat? (saParts.getD 0 "")).getD 0
            else
              if sa_da_field = "" then 0 else (pyHexNat? sa_da_field).getD 0
          let da_int :=
            if 2 ≤ saParts.length then
              if saParts.getD 1 "" = "*" then 0xFF
              else if saParts.getD 1 "" = "" then 0xFF
              else (pyHexNat? (saParts.getD 1 "")).getD 0xFF
            else
              if sa_da_field = "" then 0xFF else (pyHexNat? sa_da_field).getD 0xFF
          let priority_int := if pyIsDigit priority then decNatOfDigits priority.data else 6
          let can_id := (priority_int <<< 26) ||| (pgn_int <<< 8) ||| sa_int
          some { can_id := can_id, pgn := pgn_int, source := sa_int,
                 destination := da_int, priority := priority_int,
                 data := (padTo8 data_bytes).take 8, timestamp := timestamp,
                 direction := direction, raw_line := line }

/-- The frame `_playback_worker` in `can_controller_node.py` builds from
one parsed message: the parser's `can_id` and `data`, with
`is_extended_id = False`. -/
def playback_frame (m : KvMessage) : CanFrameOut :=
  { arbitration_id := m.can_id, data := m.data, is_extended_id := false }

/-- Padding to 8 and truncating to 8 always yields exactly 8 entries. -/
theorem padTo8_take_length (l : List ℕ) : ((padTo8 l).take 8).length = 8 := by
  simp [padTo8, List.length_take, List.length_append, List.length_replicate]
  omega

/-- Modelled from the spec: the §6 reading of a data-byte column, with
`-` treated as the byte value 0 in place. Spec-side definition, to be
compared with the source-side `kvDataBytes`. -/
def specDataByteRead (tok : String) : ℕ :=
  if tok = "-" then 0 else (pyHexNat? tok).getD 0

/-- `kvDataBytes` distributes over append. -/
theorem kvDataBytes_append (a b : List String) :
    kvDataBytes (a ++ b) = kvDataBytes a ++ kvDataBytes b := by
  unfold kvDataBytes
  exact List.filterMap_append a b _

/-- On columns that are neither empty nor `-`, the extraction loop keeps
every column, as its hex value (0 on parse failure). -/
theorem kvDataBytes_eq_map (l : List String) (h : ∀ t ∈ l, ¬(t = "" ∨ t = "-")) :
    kvDataBytes l = l.map fun t => (pyHexNat? t).getD 0 := by
  induction l with
  | nil => rfl
  | cons t rest ih =>
      have ht := h t (List.mem_cons_self t rest)
      have ih2 := ih fun x hx => h x (List.mem_cons_of_mem t hx)
      unfold kvDataBytes at ih2 ⊢
      simp [List.filterMap_cons, ht, ih2]

/-- `-` columns contribute no byte at all. -/
theorem kvDataBytes_replicate_dash (n : ℕ) :
    kvDataBytes (List.replicate n "-") = [] := by
  induction n with
  | zero => rfl
  | succ k ih =>
      simp [kvDataBytes, List.replicate_succ, List.filterMap_cons, ih]

/-- C8: the claim as frozen is false: in the extraction loop a `-` column
is skipped, not read as 0 in place — with D0 = `-`, the remaining bytes
shift to lower positions and a zero is padded at the end, giving
`[05 FF FF FF FF FF FF 00]` instead of the claimed
`[00 05 FF FF FF FF FF FF]`. -/
theorem dash_column_counterexample :
    ((parse_kvaser_line "CAN 1 6 1F10D DE->* 8 - 05 FF FF FF FF FF FF 1840.937662 R").map
        KvMessage.data = some [0x05, 0xFF, 0xFF, 0xFF, 0xFF, 0xFF, 0xFF, 0x00]) ∧
    some [(0x05 : ℕ), 0xFF, 0xFF, 0xFF, 0xFF, 0xFF, 0xFF, 0x00]
      ≠ some [0x00, 0x05, 0xFF, 0xFF, 0xFF, 0xFF, 0xFF, 0xFF] := by
  constructor <;> decide

/-- C8 (amended): a `-` data column contributes no byte (later columns
shift left) and zeros are padded at the end up to 8 bytes; when every `-`
lies after all the hex columns — the shape this log format actually
produces — the result coincides with reading `-` as 0 in place. -/
theorem dash_columns_drop (goodTok : List String) (n : ℕ)
    (hgood : ∀ t ∈ goodTok, ¬(t = "" ∨ t = "-")) (hlen : goodTok.length + n = 8) :
    (padTo8 (kvDataBytes (goodTok ++ List.replicate n "-"))).take 8
      = (padTo8 ((goodTok ++ List.replicate n "-").map specDataByteRead)).take 8 := by
  have hL : kvDataBytes (goodTok ++ List.replicate n "-")
      = goodTok.map fun t => (pyHexNat? t).getD 0 := by
    rw [kvDataBytes_append, kvDataBytes_eq_map goodTok hgood,
      kvDataBytes_replicate_dash, List.append_nil]
  have hspec : goodTok.map specDataByteRead
      = goodTok.map fun t => (pyHexNat? t).getD 0 := by
    refine List.map_congr_left fun t ht => ?_
    have := hgood t ht
    unfold specDataByteRead
    rw [if_neg (by tauto)]
  have hlenM : (goodTok.map fun t => (pyHexNat? t).getD 0).length = 8 - n := by
    rw [List.length_map]
    omega
  rw [hL, List.map_append, hspec, List.map_replicate]
  show (padTo8 _).take 8 = (padTo8 (_ ++ List.replicate n (specDataByteRead "-"))).take 8
  rw [show specDataByteRead "-" = 0 from rfl]
  unfold padTo8
  rw [hlenM, List.length_append, hlenM, List.length_replicate]
  have h8 : 8 - (8 - n) = n := by omega
  have h0 : 8 - (8 - n + n) = 0 := by omega
  rw [h8, h0, List.replicate_zero, List.append_nil]

/-- C8 witness: two hex columns followed by six `-` columns agree with
the in-place reading. -/
theorem dash_columns_drop_witness :
    (padTo8 (kvDataBytes (["05", "FF"] ++ List.replicate 6 "-"))).take 8
      = (padTo8 ((["05", "FF"] ++ List.replicate 6 "-").map specDataByteRead)).take 8 :=
  dash_columns_drop ["05", "FF"] 6 (by decide) (by decide)

/-- C9: the claim as frozen is false: a record whose DLC column says 4
and which carries only four data columns puts the timestamp and direction
tokens in the byte window, and the timestamp `1840` parses as hex 0x1840
= 6208 — a data entry far above 255. -/
theorem data_entry_range_counterexample :
    ((parse_kvaser_line "CAN 1 6 1F211 91->* 4 05 FF 5E 06 1840 R").map KvMessage.data
      = some [5, 255, 94, 6, 6208, 0, 0, 0]) ∧
    ¬ (6208 : ℕ) ≤ 255 := by
  constructor <;> decide

/-- C9 (amended): every message `_parse_kvaser_line` returns has a data
list of exactly 8 entries, regardless of the DLC column. No range bound
on the entries is asserted: the counterexample shows an entry above 255,
and the source's `int(token, 16)` would even return a negative entry for
a sign-prefixed token, which this embedding does not model. -/
theorem parse_data_length (line : String) (m : KvMessage)
    (h : parse_kvaser_line line = some m) : m.data.length = 8 := by
  simp only [parse_kvaser_line] at h
  split at h
  · simp at h
  · split at h
    · simp at h
    · split at h
      · simp at h
      · rw [Option.some.injEq] at h
        subst h
        exact padTo8_take_length _

/-- The Kvaser-format line of the C9 counterexample. -/
def kvLine12 : String := "CAN 1 6 1F211 91->* 4 05 FF 5E 06 1840 R"

/-- What `_parse_kvaser_line` returns on `kvLine12`. -/
def kvMsg12 : KvMessage :=
  { can_id := 99750289, pgn := 127505, source := 145, destination := 255,
    priority := 1, data := [5, 255, 94, 6, 6208, 0, 0, 0], timestamp := mkRat 1840 1,
    direction := "R", raw_line := "CAN 1 6 1F211 91->* 4 05 FF 5E 06 1840 R" }

/-- C9 witness: the length invariant at a concrete parsed line. -/
theorem parse_data_length_witness :
    parse_kvaser_line kvLine12 = some kvMsg12 ∧ kvMsg12.data.length = 8 :=
  ⟨by decide, parse_data_length kvLine12 kvMsg12 (by decide)⟩

/-- C10: every frame the playback worker builds from a parsed message
carries `is_extended_id = False`, while its arbitration ID is the
parser-constructed 29-bit value `(priority << 26) | (pgn << 8) |
source`. -/
theorem playback_frame_not_extended (line : String) (m : KvMessage)
    (h : parse_kvaser_line line = some m) :
    playback_frame m = { arbitration_id := m.can_id, data := m.data,
                         is_extended_id := false } ∧
    m.can_id = (m.priority <<< 26) ||| (m.pgn <<< 8) ||| m.source := by
  refine ⟨rfl, ?_⟩
  simp only [parse_kvaser_line] at h
  split at h
  · simp at h
  · split at h
    · simp at h
    · split at h
      · simp at h
      · rw [Option.some.injEq] at h
        subst h
        rfl

/-- C10 witness: the playback frame for the concrete parsed line. -/
theorem playback_frame_not_extended_witness :
    playback_frame kvMsg12 = { arbitration_id := kvMsg12.can_id, data := kvMsg12.data,
                               is_extended_id := false } ∧
    kvMsg12.can_id
      = (kvMsg12.priority <<< 26) ||| (kvMsg12.pgn <<< 8) ||| kvMsg12.source :=
  playback_frame_not_extended kvLine12 kvMsg12 (by decide)
